import Mathlib

/-!
# Verification of the date/time utilities (src/src/04-date-tasks.js)

This file gives a shallow embedding of the five functions of the module
(`parseDataFromRfc2822`, `parseDataFromIso8601`, `isLeapYear`,
`timeSpanToString`, `angleBetweenClockHands`) and proves or refutes the
specified properties about them.

Date/time values are embedded as integer milliseconds since the Unix epoch
(the internal representation of a JavaScript `Date`); an invalid date is
`Option.none`.  JavaScript number arithmetic on the integral values
involved is embedded as exact integer arithmetic (`Int`), with JavaScript's
truncating remainder `%` embedded as `Int.tmod` and `toFixed(0)` embedded
as rounding the exact rational to the nearest integer, ties away from
zero, which is the IEEE/ECMAScript behaviour on the magnitudes involved.
-/

/- ## JavaScript number/string helpers -/

/-- `Number.prototype.toFixed(0)` applied to the nonnegative exact rational
`num / den`: round to nearest, ties away from zero (ECMA-262 chooses the
larger candidate). -/
def jsToFixed0Val (num : Int) (den : Nat) : Nat :=
  (2 * num.natAbs + den) / (2 * den)

/-- Numeric value of `(num / den).toFixed(0)` after JS string→number
coercion (`"-0"` coerces to `-0`, i.e. integer `0`). -/
def jsToFixed0Int (num : Int) (den : Nat) : Int :=
  if num < 0 then -(jsToFixed0Val num den : Int) else (jsToFixed0Val num den : Int)

/-- The string returned by `(num / den).toFixed(0)`: a negative input is
rendered as `"-"` followed by the rounded absolute value, so `-0.008`
renders as `"-0"`. -/
def jsToFixed0Str (num : Int) (den : Nat) : String :=
  if num < 0 then "-" ++ toString (jsToFixed0Val num den)
  else toString (jsToFixed0Val num den)

/- ## `timeSpanToString` (src/src/04-date-tasks.js lines 85–106) -/

/-- The body of `timeSpanToString` as a function of
`diff = endDate - startDate` (the code uses the two dates only through
this difference).  Each `let` mirrors one line of the source; `addZeros`
is the source's pad-to-two helper, and the `hoursStr`/`hoursVal` pair
carries the string produced by `toFixed(0)` together with its numeric
coercion (used by the `el < 10` comparison). -/
def timeSpanOfDiffMs (diff : Int) : String :=
  let miliSecs := diff.tmod 1000
  let allSecs := (diff - miliSecs) / 1000
  let secs := if allSecs < 60 then allSecs else allSecs - jsToFixed0Int allSecs 60 * 60
  let allMins := (allSecs - secs) / 60
  let mins := if allMins < 60 then allMins else allMins - jsToFixed0Int allMins 60 * 60
  let hoursVal := jsToFixed0Int (allSecs - mins * 60) 3600
  let hoursStr := jsToFixed0Str (allSecs - mins * 60) 3600
  let addZeros : Int → String := fun el => if el < 10 then "0" ++ toString el else toString el
  let hoursOut := if hoursVal < 10 then "0" ++ hoursStr else hoursStr
  let msStr :=
    if miliSecs < 100 then
      if miliSecs < 10 then "00" ++ toString miliSecs else "0" ++ toString miliSecs
    else toString miliSecs
  hoursOut ++ ":" ++ addZeros mins ++ ":" ++ addZeros secs ++ "." ++ msStr

/-- `timeSpanToString(startDate, endDate)`; the first line of the source is
`const diff = endDate - startDate`. -/
def timeSpanToString (startDate endDate : Int) : String :=
  timeSpanOfDiffMs (endDate - startDate)

/-- `formatTimeSpan` exactly as §4.4 of the spec words it: absolute
difference, true floor-division/modulo decomposition, `HH:mm:ss.sss`
padding. -/
def formatTimeSpanSpec (a b : Int) : String :=
  let diffMs := |b - a|
  let milliseconds := diffMs % 1000
  let totalSeconds := diffMs / 1000
  let seconds := totalSeconds % 60
  let totalMinutes := totalSeconds / 60
  let minutes := totalMinutes % 60
  let hours := totalMinutes / 60
  let pad2 : Int → String := fun n => if n < 10 then "0" ++ toString n else toString n
  let pad3 : Int → String := fun n =>
    if n < 10 then "00" ++ toString n else if n < 100 then "0" ++ toString n else toString n
  pad2 hours ++ ":" ++ pad2 minutes ++ ":" ++ pad2 seconds ++ "." ++ pad3 milliseconds

/- ## `isLeapYear` (src/src/04-date-tasks.js lines 64–68) -/

/-- A JavaScript `Date` as seen through its component accessors: the
calendar components of the instant.  `isLeapYear` reads only the year. -/
structure DateValue where
  year : Int
  month : Int
  day : Int
  hours : Int
  minutes : Int
  seconds : Int
  ms : Int

/-- `date.getFullYear()`: the calendar-year component. -/
def DateValue.getFullYear (d : DateValue) : Int := d.year

/-- `isLeapYear` from the source: Gregorian rule on the year component. -/
def isLeapYear (date : DateValue) : Bool :=
  let year := date.getFullYear
  (year % 400 == 0) || (year % 100 != 0 && year % 4 == 0)

/- ## `angleBetweenClockHands` (src/src/04-date-tasks.js lines 122–131) -/

/-- `date.getUTCHours()`: hour-of-day component (0–23) of the instant `t`
in epoch milliseconds. -/
def getUTCHours (t : Int) : Int := t % 86400000 / 3600000

/-- `date.getUTCMinutes()`: minute component (0–59). -/
def getUTCMinutes (t : Int) : Int := t % 3600000 / 60000

open Classical in
/-- The last two source lines shared verbatim by the code and the spec's
§4.5 formula: `angle = (Math.PI / 360) * Math.abs(60 * h2 - 11 * m)`,
then `angle > π ? 2π - angle : angle`.  `Math.PI` and the float
arithmetic are embedded as exact real arithmetic. -/
noncomputable def clockAngleOf (h2 m : Int) : ℝ :=
  if Real.pi < Real.pi / 360 * |60 * (h2 : ℝ) - 11 * (m : ℝ)| then
    2 * Real.pi - Real.pi / 360 * |60 * (h2 : ℝ) - 11 * (m : ℝ)|
  else Real.pi / 360 * |60 * (h2 : ℝ) - 11 * (m : ℝ)|

/-- `angleBetweenClockHands` from the source: the hour is reduced by
`if (h > 12) h %= 12;` (note: `h == 12` is left unreduced). -/
noncomputable def angleBetweenClockHands (date : Int) : ℝ :=
  clockAngleOf
    (if 12 < getUTCHours date then getUTCHours date % 12 else getUTCHours date)
    (getUTCMinutes date)

/-- `clockHandAngle` exactly as §4.5 of the spec words it:
`h12 = h mod 12` unconditionally. -/
noncomputable def clockHandAngleSpec (h m : Int) : ℝ :=
  clockAngleOf (h % 12) m


/- ## The JavaScript `Date` built-ins used by the parsers
(src/src/04-date-tasks.js lines 22–48)

The two parser functions of the source delegate all real work to the host
engine: `new Date(string)` (returning a `Date` holding an instant, or an
Invalid Date), the `getUTC*` component accessors, and `Date.UTC`.  None of
that code is under src/, so it is modelled here from the spec (§4.1, §4.2,
§6, §8): a date value is `Option Int` — `some` of the instant in
milliseconds since the Unix epoch, `none` for an Invalid Date — and the
calendar arithmetic is the proleptic Gregorian calendar.  The conversions
between day numbers and (year, month, day) triples below follow the
standard era-based civil-calendar algorithm. -/

/-- Modelled from the spec: numerator of the year-of-era recovery in the
civil-from-days conversion (Gregorian leap-day corrections inside one
400-year era). -/
def yearGuessNum (doe : Int) : Int :=
  doe - doe / 1460 + doe / 36524 - doe / 146096

/-- Modelled from the spec: the first day (counted inside a 400-year era
that starts on 1 March of year 0 of the era) of era-year `y`. -/
def eraStart (y : Int) : Int :=
  365 * y + y / 4 - y / 100 + y / 400
/-- Modelled from the spec: the Gregorian leap-year rule of §4.3, used by
the parser model to validate day-of-month. -/
def gregLeap (y : Int) : Bool :=
  (y % 4 == 0 && y % 100 != 0) || (y % 400 == 0)

/-- Modelled from the spec: length of month `m` (1–12, January = 1). -/
def daysInMonth (m : Int) (leap : Bool) : Int :=
  if m = 2 then (if leap then 29 else 28)
  else if m = 4 ∨ m = 6 ∨ m = 9 ∨ m = 11 then 30
  else 31

/-- Modelled from the spec: days since the Unix epoch of the proleptic
Gregorian date `(y, m, d)` with `m` 1-based. -/
def daysFromCivil (y m d : Int) : Int :=
  let y2 := y - (if m ≤ 2 then 1 else 0)
  let era := y2 / 400
  let yoe := y2 - era * 400
  let doy := (153 * (m + (if 2 < m then -3 else 9)) + 2) / 5 + d - 1
  let doe := eraStart yoe + doy
  era * 146097 + doe - 719468

/-- Modelled from the spec: (year, month, day) of day `doe` (0-based from
1 March of year `400 * era`) inside era `era`. -/
def civilOfEraDoe (era doe : Int) : Int × Int × Int :=
  let yoe := yearGuessNum doe / 365
  let doy := doe - eraStart yoe
  let mp := (5 * doy + 2) / 153
  let d := doy - (153 * mp + 2) / 5 + 1
  let m := mp + (if mp < 10 then 3 else -9)
  (yoe + era * 400 + (if m ≤ 2 then 1 else 0), m, d)

/-- Modelled from the spec: (year, month, day) of day number `z` counted
from the Unix epoch; inverse of `daysFromCivil`. -/
def civilFromDays (z : Int) : Int × Int × Int :=
  civilOfEraDoe ((z + 719468) / 146097) ((z + 719468) % 146097)
/-- `date.getUTCSeconds()`: seconds component (0–59). -/
def getUTCSeconds (t : Int) : Int := t % 60000 / 1000

/-- Modelled from the spec: `date.getUTCFullYear()`. -/
def getUTCFullYear (t : Int) : Int := (civilFromDays (t / 86400000)).1

/-- Modelled from the spec: `date.getUTCMonth()` — 0-based month, as in
JavaScript. -/
def getUTCMonth (t : Int) : Int := (civilFromDays (t / 86400000)).2.1 - 1

/-- Modelled from the spec: `date.getUTCDate()` — day of month. -/
def getUTCDate (t : Int) : Int := (civilFromDays (t / 86400000)).2.2

/-- Modelled from the spec: `Date.UTC(year, month, day, hours, minutes,
seconds)` with the 0-based month of JavaScript and no milliseconds
argument, exactly the call shape on lines 25–32 of the source. -/
def dateUTC (y mo d h mi s : Int) : Int :=
  daysFromCivil y (mo + 1) d * 86400000 + h * 3600000 + mi * 60000 + s * 1000
def digitVal? (c : Char) : Option Nat :=
  if c.isDigit then some (c.toNat - 48) else none

def parse2 (c1 c2 : Char) : Option Nat := do
  let a ← digitVal? c1
  let b ← digitVal? c2
  pure (10 * a + b)

def parse3 (c1 c2 c3 : Char) : Option Nat := do
  let a ← digitVal? c1
  let b ← digitVal? c2
  let c ← digitVal? c3
  pure (100 * a + 10 * b + c)

def parse4 (c1 c2 c3 c4 : Char) : Option Nat := do
  let a ← digitVal? c1
  let b ← digitVal? c2
  let c ← digitVal? c3
  let d ← digitVal? c4
  pure (1000 * a + 100 * b + 10 * c + d)

def parseIsoTail : List Char → Option (Nat × List Char)
  | '.' :: a :: b :: c :: r => do
      let v ← parse3 a b c
      pure (v, r)
  | r => pure (0, r)

def parseOffset : List Char → Option Int
  | ['Z'] => some 0
  | ['+', a, b, ':', c, d] => do
      let hh ← parse2 a b
      let mm ← parse2 c d
      if hh ≤ 23 ∧ mm ≤ 59 then pure ((hh : Int) * 3600000 + (mm : Int) * 60000) else none
  | ['-', a, b, ':', c, d] => do
      let hh ← parse2 a b
      let mm ← parse2 c d
      if hh ≤ 23 ∧ mm ≤ 59 then pure (-((hh : Int) * 3600000 + (mm : Int) * 60000)) else none
  | _ => none

/-- Modelled from the spec: the ISO 8601 date-time grammar accepted by the
host parser — `YYYY-MM-DDTHH:MM:SS`, optional `.sss`, and an explicit UTC
designator `Z` or numeric offset `±HH:MM` (§4.2; offset-less strings are
host-locale-dependent per §9 and are outside the model).  Components are
range-checked (including day-of-month against the Gregorian month length)
and the result is the UTC instant, restricted to the four-digit-year range
0000-01-01T00:00:00Z (inclusive) to 10000-01-01T00:00:00Z (exclusive) that
the ISO format can denote. -/
def isoFromChars : List Char → Option Int
  | y1 :: y2 :: y3 :: y4 :: '-' :: m1 :: m2 :: '-' :: d1 :: d2 :: 'T' ::
      h1 :: h2 :: ':' :: n1 :: n2 :: ':' :: s1 :: s2 :: rest => do
    let y ← parse4 y1 y2 y3 y4
    let mo ← parse2 m1 m2
    let da ← parse2 d1 d2
    let hh ← parse2 h1 h2
    let mi ← parse2 n1 n2
    let ss ← parse2 s1 s2
    let (ms, rest2) ← parseIsoTail rest
    let off ← parseOffset rest2
    if 1 ≤ mo ∧ mo ≤ 12 ∧ 1 ≤ da ∧ (da : Int) ≤ daysInMonth (mo : Int) (gregLeap (y : Int)) ∧
        hh ≤ 23 ∧ mi ≤ 59 ∧ ss ≤ 59 then
      let t := daysFromCivil (y : Int) (mo : Int) (da : Int) * 86400000 +
        (hh : Int) * 3600000 + (mi : Int) * 60000 + (ss : Int) * 1000 + (ms : Int) - off
      if -62167219200000 ≤ t ∧ t < 253402300800000 then some t else none
    else none
  | _ => none

/-- Modelled from the spec: ISO 8601 parsing of `new Date(string)`. -/
def jsParseIso (s : String) : Option Int := isoFromChars s.data

def digitChar (n : Nat) : Char := Char.ofNat (48 + n % 10)

def pad2 (n : Int) : String := ⟨[digitChar (n.toNat / 10 % 10), digitChar (n.toNat % 10)]⟩

def pad3 (n : Int) : String :=
  ⟨[digitChar (n.toNat / 100 % 10), digitChar (n.toNat / 10 % 10), digitChar (n.toNat % 10)]⟩

def pad4 (n : Int) : String :=
  ⟨[digitChar (n.toNat / 1000 % 10), digitChar (n.toNat / 100 % 10),
    digitChar (n.toNat / 10 % 10), digitChar (n.toNat % 10)]⟩

/-- Modelled from the spec: formatting an instant back to ISO 8601 with an
explicit offset (`date.toISOString()`-style, always UTC):
`YYYY-MM-DDTHH:MM:SS.sssZ`. -/
def toISOString (t : Int) : String :=
  pad4 (civilFromDays (t / 86400000)).1 ++ "-" ++
  pad2 (civilFromDays (t / 86400000)).2.1 ++ "-" ++
  pad2 (civilFromDays (t / 86400000)).2.2 ++ "T" ++
  pad2 (getUTCHours t) ++ ":" ++ pad2 (getUTCMinutes t) ++ ":" ++
  pad2 (getUTCSeconds t) ++ "." ++ pad3 (t % 1000) ++ "Z"
def splitOnChar (sep : Char) : List Char → List Char → List (List Char)
  | [], acc => [acc.reverse]
  | c :: cs, acc =>
      if c = sep then acc.reverse :: splitOnChar sep cs []
      else splitOnChar sep cs (c :: acc)

def dayNameOk : List Char → Bool
  | ['M','o','n',','] => true
  | ['T','u','e',','] => true
  | ['W','e','d',','] => true
  | ['T','h','u',','] => true
  | ['F','r','i',','] => true
  | ['S','a','t',','] => true
  | ['S','u','n',','] => true
  | _ => false

def monthFromName? : List Char → Option Nat
  | ['J','a','n'] => some 1
  | ['F','e','b'] => some 2
  | ['M','a','r'] => some 3
  | ['A','p','r'] => some 4
  | ['M','a','y'] => some 5
  | ['J','u','n'] => some 6
  | ['J','u','l'] => some 7
  | ['A','u','g'] => some 8
  | ['S','e','p'] => some 9
  | ['O','c','t'] => some 10
  | ['N','o','v'] => some 11
  | ['D','e','c'] => some 12
  | _ => none

def digitsAcc : List Char → Nat → Option Nat
  | [], acc => some acc
  | c :: cs, acc =>
      match digitVal? c with
      | some v => digitsAcc cs (10 * acc + v)
      | none => none

def parseNatDigits? (l : List Char) : Option Nat :=
  if l.isEmpty then none else digitsAcc l 0

def parseHms? (l : List Char) : Option (Nat × Nat × Nat) :=
  match splitOnChar ':' l [] with
  | [hh, mm, ss] => do
      let h ← parseNatDigits? hh
      let m ← parseNatDigits? mm
      let s ← parseNatDigits? ss
      if h ≤ 23 ∧ m ≤ 59 ∧ s ≤ 59 then pure (h, m, s) else none
  | _ => none

def parseZone? : List Char → Option Int
  | ['G','M','T'] => some 0
  | ['U','T'] => some 0
  | ['U','T','C'] => some 0
  | 'G' :: 'M' :: 'T' :: '+' :: rest => do
      let h ← parseNatDigits? rest
      if h ≤ 23 ∧ rest.length ≤ 2 then pure ((h : Int) * 3600000) else none
  | 'G' :: 'M' :: 'T' :: '-' :: rest => do
      let h ← parseNatDigits? rest
      if h ≤ 23 ∧ rest.length ≤ 2 then pure (-((h : Int) * 3600000)) else none
  | ['+', a, b, c, d] => do
      let hh ← parse2 a b
      let mm ← parse2 c d
      if hh ≤ 23 ∧ mm ≤ 59 then pure ((hh : Int) * 3600000 + (mm : Int) * 60000) else none
  | ['-', a, b, c, d] => do
      let hh ← parse2 a b
      let mm ← parse2 c d
      if hh ≤ 23 ∧ mm ≤ 59 then pure (-((hh : Int) * 3600000 + (mm : Int) * 60000)) else none
  | _ => none

/-- Modelled from the spec: the RFC 2822 date-time form §4.1 describes —
`[Day, ]DD Mon YYYY HH:MM:SS zone` with the zone `GMT`/`UT`/`UTC`,
`GMT±HH`, or `±HHMM`; the embedded offset is interpreted and the result
normalized to UTC milliseconds. -/
def rfcFrom (ddTok monTok yTok timeTok zoneTok : List Char) : Option Int := do
  let dd ← parseNatDigits? ddTok
  let mo ← monthFromName? monTok
  let y ← parseNatDigits? yTok
  let hms ← parseHms? timeTok
  let off ← parseZone? zoneTok
  if 1 ≤ dd ∧ (dd : Int) ≤ daysInMonth (mo : Int) (gregLeap (y : Int)) ∧ yTok.length = 4 then
    let t := daysFromCivil (y : Int) (mo : Int) (dd : Int) * 86400000 +
      (hms.1 : Int) * 3600000 + (hms.2.1 : Int) * 60000 + (hms.2.2 : Int) * 1000 - off
    if -62167219200000 ≤ t ∧ t < 253402300800000 then some t else none
  else none

/-- Modelled from the spec: RFC 2822 parsing of `new Date(string)` (the
day-of-week name, with trailing comma, is optional). -/
def jsParseRfc (s : String) : Option Int :=
  match splitOnChar ' ' s.data [] with
  | [w1, w2, w3, w4, w5, w6] =>
      if dayNameOk w1 then rfcFrom w2 w3 w4 w5 w6 else none
  | [w2, w3, w4, w5, w6] => rfcFrom w2 w3 w4 w5 w6
  | _ => none

/-- Modelled from the spec: `new Date(string)` — try the ISO 8601 format
first (as ECMA-262 mandates), then the RFC 2822 fallback; `none` is the
Invalid Date. -/
def jsNewDate (s : String) : Option Int :=
  match jsParseIso s with
  | some t => some t
  | none => jsParseRfc s

/-- `parseDataFromIso8601` from the source: `return new Date(value);`. -/
def parseDataFromIso8601 (value : String) : Option Int := jsNewDate value

/-- `parseDataFromRfc2822` from the source: `const tm = new Date(value);`
then `Date.UTC` of the six `getUTC*` components (no milliseconds); if `tm`
is an Invalid Date every component is NaN and `Date.UTC` returns NaN,
modelled by `none` propagation. -/
def parseDataFromRfc2822 (value : String) : Option Int :=
  (jsNewDate value).map (fun tm =>
    dateUTC (getUTCFullYear tm) (getUTCMonth tm) (getUTCDate tm)
      (getUTCHours tm) (getUTCMinutes tm) (getUTCSeconds tm))

/- ## Theorems for claims C1, C2, C5, C9 -/


/-- **C1** (counterexample): `timeSpanToString` is *not* symmetric under
argument swap; at `a = 0 ms`, `b = 500 ms` the forward call yields
`"00:00:00.500"` but the swapped call yields `"00:00:00.00-500"` because
the code uses the signed difference `endDate - startDate`, not its
absolute value. -/
theorem claim_C1_counterexample :
    timeSpanToString 0 500 ≠ timeSpanToString 500 0 := by decide

/-- **C1** (amended): the result of `timeSpanToString` depends only on the
signed difference `endDate - startDate` (no absolute value is taken), so
two calls agree exactly when their signed differences agree; symmetry
under swap fails in general. -/
theorem claim_C1_amended_diff_only (a b c d : Int) (h : b - a = d - c) :
    timeSpanToString a b = timeSpanToString c d := by
  unfold timeSpanToString
  rw [h]

/-- Witness for `claim_C1_amended_diff_only` at `(0, 500, 100, 600)`. -/
theorem claim_C1_witness :
    (500 : Int) - 0 = 600 - 100 ∧ timeSpanToString 0 500 = timeSpanToString 100 600 :=
  ⟨by decide, claim_C1_amended_diff_only 0 500 100 600 (by decide)⟩

/-- **C2** (code bug): at `startDate` 10:00:00 and `endDate` 10:01:30 of
the same day (difference 90000 ms) the code produces `"0-0:02:0-30.000"`
— `toFixed(0)` rounds `90 / 60` up to `2`, driving the seconds field to
`-30` — while the floor/mod decomposition claimed by the spec gives
`"00:01:30.000"`. -/
theorem claim_C2_code_bug_eval :
    timeSpanToString 36000000 36090000 = "0-0:02:0-30.000" ∧
      formatTimeSpanSpec 36000000 36090000 = "00:01:30.000" := by decide

/-- **C5**: `isLeapYear` returns `true` iff the Gregorian rule holds of
the year component (`Y % 400 = 0`, or `Y % 100 ≠ 0` and `Y % 4 = 0`), it
depends only on the year (month, day and time of day are ignored), and it
is total.  The spec's concrete cases 1900/2000/2001/2012/2015 are
included. -/
theorem claim_C5_isLeapYear :
    (∀ d : DateValue,
        isLeapYear d = true ↔
          (d.year % 400 = 0 ∨ (d.year % 100 ≠ 0 ∧ d.year % 4 = 0))) ∧
    (∀ d₁ d₂ : DateValue, d₁.year = d₂.year → isLeapYear d₁ = isLeapYear d₂) ∧
    isLeapYear ⟨1900, 1, 1, 0, 0, 0, 0⟩ = false ∧
    isLeapYear ⟨2000, 1, 1, 0, 0, 0, 0⟩ = true ∧
    isLeapYear ⟨2001, 1, 1, 0, 0, 0, 0⟩ = false ∧
    isLeapYear ⟨2012, 1, 1, 0, 0, 0, 0⟩ = true ∧
    isLeapYear ⟨2015, 1, 1, 0, 0, 0, 0⟩ = false := by
  refine ⟨?_, ?_, by decide, by decide, by decide, by decide, by decide⟩
  · intro d
    simp only [isLeapYear, DateValue.getFullYear, Bool.or_eq_true, Bool.and_eq_true,
      beq_iff_eq, bne_iff_ne, ne_eq]
  · intro d₁ d₂ h
    simp only [isLeapYear, DateValue.getFullYear, h]

/-- Witness for `claim_C5_isLeapYear`: the year-only dependence applied to
two dates sharing year 2024 but differing in every other component. -/
theorem claim_C5_witness :
    isLeapYear ⟨2024, 1, 1, 0, 0, 0, 0⟩ = isLeapYear ⟨2024, 11, 30, 23, 59, 59, 999⟩ :=
  claim_C5_isLeapYear.2.1 ⟨2024, 1, 1, 0, 0, 0, 0⟩ ⟨2024, 11, 30, 23, 59, 59, 999⟩ rfl

/-- **C9**: for any day, pairing 10:00:00 of that day with 11:00:00,
10:30:00, 10:00:20, 10:00:00.250 and 15:20:10.453 of the same day yields
exactly the five strings given in the spec. -/
theorem claim_C9_concrete_spans (day : Int) :
    timeSpanToString (day * 86400000 + 36000000) (day * 86400000 + 39600000) = "01:00:00.000" ∧
    timeSpanToString (day * 86400000 + 36000000) (day * 86400000 + 37800000) = "00:30:00.000" ∧
    timeSpanToString (day * 86400000 + 36000000) (day * 86400000 + 36020000) = "00:00:20.000" ∧
    timeSpanToString (day * 86400000 + 36000000) (day * 86400000 + 36000250) = "00:00:00.250" ∧
    timeSpanToString (day * 86400000 + 36000000) (day * 86400000 + 55210453) = "05:20:10.453" := by
  unfold timeSpanToString
  have h1 : day * 86400000 + 39600000 - (day * 86400000 + 36000000) = 3600000 := by ring
  have h2 : day * 86400000 + 37800000 - (day * 86400000 + 36000000) = 1800000 := by ring
  have h3 : day * 86400000 + 36020000 - (day * 86400000 + 36000000) = 20000 := by ring
  have h4 : day * 86400000 + 36000250 - (day * 86400000 + 36000000) = 250 := by ring
  have h5 : day * 86400000 + 55210453 - (day * 86400000 + 36000000) = 19210453 := by ring
  rw [h1, h2, h3, h4, h5]
  exact ⟨by decide, by decide, by decide, by decide, by decide⟩

/- ## Theorems for claims C3, C4 -/

lemma getUTCHours_bounds (t : Int) : 0 ≤ getUTCHours t ∧ getUTCHours t < 24 := by
  unfold getUTCHours; omega

lemma getUTCMinutes_bounds (t : Int) : 0 ≤ getUTCMinutes t ∧ getUTCMinutes t < 60 := by
  unfold getUTCMinutes; omega

lemma clockAngleOf_twelve (m : Int) (h0 : 0 ≤ m) (h1 : m < 60) :
    clockAngleOf 12 m = clockAngleOf 0 m := by
  have hm0 : (0 : ℝ) ≤ (m : ℝ) := by exact_mod_cast h0
  have hm1 : (m : ℝ) ≤ 59 := by
    have : m ≤ 59 := by omega
    exact_mod_cast this
  have hpi := Real.pi_pos
  unfold clockAngleOf
  have e1 : |60 * ((12 : Int) : ℝ) - 11 * (m : ℝ)| = 720 - 11 * (m : ℝ) := by
    rw [abs_of_nonneg] <;> push_cast <;> linarith
  have e2 : |60 * ((0 : Int) : ℝ) - 11 * (m : ℝ)| = 11 * (m : ℝ) := by
    have : 60 * ((0 : Int) : ℝ) - 11 * (m : ℝ) = -(11 * (m : ℝ)) := by push_cast; ring
    rw [this, abs_neg, abs_of_nonneg] ; linarith
  rw [e1, e2]
  rcases le_or_lt m 32 with hc | hc
  · have hc' : (m : ℝ) ≤ 32 := by exact_mod_cast hc
    rw [if_pos (by nlinarith), if_neg (by nlinarith)]
    ring
  · have hc' : (33 : ℝ) ≤ (m : ℝ) := by exact_mod_cast hc
    rw [if_neg (by nlinarith), if_pos (by nlinarith)]
    ring

/-- **C3**: for every instant, `angleBetweenClockHands` returns exactly
the spec's `clockHandAngle` value computed with `h12 = h mod 12`; the
only divergent case in the code, `h = 12` left unreduced, is absorbed by
the final `2π - angle` reduction. -/
theorem claim_C3_refines_spec (t : Int) :
    angleBetweenClockHands t = clockHandAngleSpec (getUTCHours t) (getUTCMinutes t) := by
  obtain ⟨hh0, hh1⟩ := getUTCHours_bounds t
  obtain ⟨hm0, hm1⟩ := getUTCMinutes_bounds t
  unfold angleBetweenClockHands clockHandAngleSpec
  rcases lt_trichotomy (getUTCHours t) 12 with hlt | heq | hgt
  · rw [if_neg (by omega), Int.emod_eq_of_lt hh0 (by omega)]
  · rw [heq, if_neg (by omega)]
    rw [show (12 : Int) % 12 = 0 by decide]
    exact clockAngleOf_twelve _ hm0 hm1
  · rw [if_pos (by omega)]

lemma clockAngleOf_range (h2 m : Int) (hh0 : 0 ≤ h2) (hh1 : h2 ≤ 12)
    (hm0 : 0 ≤ m) (hm1 : m < 60) :
    0 ≤ clockAngleOf h2 m ∧ clockAngleOf h2 m ≤ Real.pi := by
  have hpi := Real.pi_pos
  have hx0 : (0 : ℝ) ≤ (h2 : ℝ) := by exact_mod_cast hh0
  have hx1 : (h2 : ℝ) ≤ 12 := by exact_mod_cast hh1
  have hy0 : (0 : ℝ) ≤ (m : ℝ) := by exact_mod_cast hm0
  have hy1 : (m : ℝ) ≤ 59 := by exact_mod_cast (by omega : m ≤ 59)
  unfold clockAngleOf
  have habs : |60 * (h2 : ℝ) - 11 * (m : ℝ)| ≤ 720 := by
    rw [abs_le]; constructor <;> linarith
  have habs0 : (0 : ℝ) ≤ |60 * (h2 : ℝ) - 11 * (m : ℝ)| := abs_nonneg _
  have ha0 : (0 : ℝ) ≤ Real.pi / 360 * |60 * (h2 : ℝ) - 11 * (m : ℝ)| := by positivity
  have ha2 : Real.pi / 360 * |60 * (h2 : ℝ) - 11 * (m : ℝ)| ≤ 2 * Real.pi := by nlinarith
  split_ifs with hc
  · constructor <;> linarith
  · constructor <;> linarith

/-- **C4**: the result of `angleBetweenClockHands` always lies in
`[0, π]`, and 00:00 ↦ 0, 03:00 ↦ π/2, 18:00 ↦ π, 21:00 ↦ π/2 (instants
0, 10800000, 64800000, 75600000 of the epoch day). -/
theorem claim_C4_range_and_values :
    (∀ t : Int, 0 ≤ angleBetweenClockHands t ∧ angleBetweenClockHands t ≤ Real.pi) ∧
    angleBetweenClockHands 0 = 0 ∧
    angleBetweenClockHands 10800000 = Real.pi / 2 ∧
    angleBetweenClockHands 64800000 = Real.pi ∧
    angleBetweenClockHands 75600000 = Real.pi / 2 := by
  have hpi := Real.pi_pos
  refine ⟨?_, ?_, ?_, ?_, ?_⟩
  · intro t
    obtain ⟨hh0, hh1⟩ := getUTCHours_bounds t
    obtain ⟨hm0, hm1⟩ := getUTCMinutes_bounds t
    unfold angleBetweenClockHands
    split_ifs with hc
    · exact clockAngleOf_range _ _ (by omega) (by omega) hm0 hm1
    · exact clockAngleOf_range _ _ hh0 (by omega) hm0 hm1
  · unfold angleBetweenClockHands
    rw [show getUTCHours 0 = 0 from by decide, show getUTCMinutes 0 = 0 from by decide]
    rw [if_neg (by decide)]
    unfold clockAngleOf
    rw [show |60 * ((0 : Int) : ℝ) - 11 * ((0 : Int) : ℝ)| = 0 from by norm_num]
    rw [if_neg (by intro hcon; nlinarith)]
    ring
  · unfold angleBetweenClockHands
    rw [show getUTCHours 10800000 = 3 from by decide,
      show getUTCMinutes 10800000 = 0 from by decide]
    rw [if_neg (by decide)]
    unfold clockAngleOf
    rw [show |60 * ((3 : Int) : ℝ) - 11 * ((0 : Int) : ℝ)| = 180 from by norm_num]
    rw [if_neg (by intro hcon; nlinarith)]
    ring
  · unfold angleBetweenClockHands
    rw [show getUTCHours 64800000 = 18 from by decide,
      show getUTCMinutes 64800000 = 0 from by decide]
    rw [if_pos (by decide), show (18 : Int) % 12 = 6 from by decide]
    unfold clockAngleOf
    rw [show |60 * ((6 : Int) : ℝ) - 11 * ((0 : Int) : ℝ)| = 360 from by norm_num]
    rw [if_neg (by intro hcon; nlinarith)]
    ring
  · unfold angleBetweenClockHands
    rw [show getUTCHours 75600000 = 21 from by decide,
      show getUTCMinutes 75600000 = 0 from by decide]
    rw [if_pos (by decide), show (21 : Int) % 12 = 9 from by decide]
    unfold clockAngleOf
    rw [show |60 * ((9 : Int) : ℝ) - 11 * ((0 : Int) : ℝ)| = 540 from by norm_num]
    rw [if_pos (by nlinarith)]
    ring

/- ## Calendar and parser lemmas -/

lemma eraStart_succ_ge (y : Int) (h : 0 ≤ y) : eraStart y + 365 ≤ eraStart (y + 1) := by
  unfold eraStart; omega

lemma eraStart_ge_of_ge_400 (y : Int) (h : 400 ≤ y) : 146097 ≤ eraStart y := by
  unfold eraStart; omega

lemma eraStart_nonneg (y : Int) (h : 0 ≤ y) : 0 ≤ eraStart y := by
  unfold eraStart; omega

lemma yearGuessNum_mono_succ (d : Int) (h : 0 ≤ d) :
    yearGuessNum d ≤ yearGuessNum (d + 1) := by
  unfold yearGuessNum; omega

lemma yearGuessNum_mono (a b : Int) (h0 : 0 ≤ a) (h : a ≤ b) :
    yearGuessNum a ≤ yearGuessNum b := by
  obtain ⟨k, rfl⟩ : ∃ k : Nat, b = a + k := ⟨(b - a).toNat, by omega⟩
  clear h
  induction k with
  | zero => norm_num
  | succ k ih =>
    have h2 := yearGuessNum_mono_succ (a + (k : Int)) (by omega)
    have h3 : a + ((k + 1 : Nat) : Int) = a + (k : Int) + 1 := by push_cast; ring
    rw [h3]
    exact le_trans ih h2
set_option maxRecDepth 4000 in
lemma era_endpoints : ∀ y : Fin 400,
    365 * (y.val : Int) ≤ yearGuessNum (eraStart (y.val : Int)) ∧
    yearGuessNum (eraStart ((y.val : Int) + 1) - 1) < 365 * ((y.val : Int) + 1) := by
  decide

lemma era_localize_nat : ∀ n : Nat, n < 146097 →
    ∃ y : Nat, y ≤ 399 ∧ eraStart (y : Int) ≤ (n : Int) ∧ (n : Int) < eraStart ((y : Int) + 1) := by
  intro n
  induction n with
  | zero => intro _; exact ⟨0, by norm_num, by decide, by decide⟩
  | succ n ih =>
    intro hn
    obtain ⟨y, hy, h1, h2⟩ := ih (by omega)
    by_cases hc : ((n : Int) + 1) < eraStart ((y : Int) + 1)
    · exact ⟨y, hy, by push_cast; omega, by push_cast; omega⟩
    · have heq : eraStart ((y : Int) + 1) = (n : Int) + 1 := by omega
      refine ⟨y + 1, ?_, by push_cast; omega, ?_⟩
      · by_contra hy'
        have h400 : (400 : Int) ≤ (y : Int) + 1 := by omega
        have := eraStart_ge_of_ge_400 _ h400
        omega
      · have := eraStart_succ_ge ((y : Int) + 1) (by omega)
        push_cast
        omega

lemma yoe_localize (doe : Int) (h0 : 0 ≤ doe) (h1 : doe < 146097) :
    0 ≤ yearGuessNum doe / 365 ∧ yearGuessNum doe / 365 ≤ 399 ∧
    eraStart (yearGuessNum doe / 365) ≤ doe ∧ doe < eraStart (yearGuessNum doe / 365 + 1) := by
  obtain ⟨y, hy, hlo, hhi⟩ := era_localize_nat doe.toNat (by omega)
  have hcast : ((doe.toNat : Nat) : Int) = doe := by omega
  rw [hcast] at hlo hhi
  obtain ⟨e1, e2⟩ := era_endpoints ⟨y, by omega⟩
  simp only at e1 e2
  have hm1 : yearGuessNum (eraStart (y : Int)) ≤ yearGuessNum doe :=
    yearGuessNum_mono _ _ (eraStart_nonneg _ (by omega)) hlo
  have hm2 : yearGuessNum doe ≤ yearGuessNum (eraStart ((y : Int) + 1) - 1) :=
    yearGuessNum_mono _ _ (by omega) (by omega)
  have h365 : 365 * (y : Int) ≤ yearGuessNum doe := le_trans e1 hm1
  have h365' : yearGuessNum doe < 365 * ((y : Int) + 1) := lt_of_le_of_lt hm2 e2
  have hq : yearGuessNum doe / 365 = (y : Int) := by omega
  rw [hq]
  exact ⟨by omega, by omega, hlo, hhi⟩
lemma gregLeap_iff (y : Int) :
    gregLeap y = true ↔ ((y % 4 = 0 ∧ y % 100 ≠ 0) ∨ y % 400 = 0) := by
  simp only [gregLeap, Bool.or_eq_true, Bool.and_eq_true, beq_iff_eq, bne_iff_ne, ne_eq]
lemma eraStart_gap (y : Int) (h0 : 0 ≤ y) (h1 : y ≤ 399) :
    eraStart (y + 1) - eraStart y =
      365 + (if ((y + 1) % 4 = 0 ∧ (y + 1) % 100 ≠ 0) ∨ (y + 1) % 400 = 0 then 1 else 0) := by
  unfold eraStart
  split_ifs <;> omega
lemma daysInMonth_true (m : Int) :
    daysInMonth m true = if m = 2 then 29 else if m = 4 ∨ m = 6 ∨ m = 9 ∨ m = 11 then 30 else 31 := by
  unfold daysInMonth; norm_num

lemma daysInMonth_false (m : Int) :
    daysInMonth m false = if m = 2 then 28 else if m = 4 ∨ m = 6 ∨ m = 9 ∨ m = 11 then 30 else 31 := by
  unfold daysInMonth; norm_num
lemma civil_inv_core (z2 era doe yoe doy mp d m : Int)
    (heradoe : z2 = era * 146097 + doe)
    (hdoe0 : 0 ≤ doe) (hdoe1 : doe < 146097)
    (hy0 : 0 ≤ yoe) (hy1 : yoe ≤ 399)
    (hlo : eraStart yoe ≤ doe) (hhi : doe < eraStart (yoe + 1))
    (hdoy : doy = doe - eraStart yoe)
    (hmp : mp = (5 * doy + 2) / 153)
    (hd : d = doy - (153 * mp + 2) / 5 + 1)
    (hm : m = mp + (if mp < 10 then 3 else -9)) :
    daysFromCivil (yoe + era * 400 + (if m ≤ 2 then 1 else 0)) m d = z2 - 719468 ∧
    1 ≤ m ∧ m ≤ 12 ∧ 1 ≤ d ∧
    d ≤ daysInMonth m (gregLeap (yoe + era * 400 + (if m ≤ 2 then 1 else 0))) := by
  have hgap := eraStart_gap yoe hy0 hy1
  have hgapb : 365 ≤ eraStart (yoe + 1) - eraStart yoe ∧
      eraStart (yoe + 1) - eraStart yoe ≤ 366 := by
    split_ifs at hgap <;> omega
  have hdoy0 : 0 ≤ doy := by omega
  have hdoy1 : doy ≤ 365 := by omega
  have hmp0 : 0 ≤ mp := by omega
  have hmp1 : mp ≤ 11 := by omega
  have hd0 : 1 ≤ d := by omega
  rcases lt_or_le mp 10 with hsplit | hsplit
  · have hmm : m = mp + 3 := by rw [hm, if_pos hsplit]
    have hmle : ¬ (m ≤ 2) := by omega
    rw [if_neg hmle]
    refine ⟨?_, by omega, by omega, hd0, ?_⟩
    · unfold daysFromCivil
      simp only
      rw [if_neg hmle, if_pos (show 2 < m by omega)]
      rw [show yoe + era * 400 + 0 - 0 = yoe + era * 400 from by ring]
      rw [show (yoe + era * 400) / 400 = era from by omega]
      rw [show yoe + era * 400 - era * 400 = yoe from by ring]
      rw [show 153 * (m + -3) + 2 = 153 * mp + 2 from by omega]
      omega
    · rcases hb : gregLeap (yoe + era * 400 + 0) with _ | _
      · rw [daysInMonth_false]
        split_ifs <;> omega
      · rw [daysInMonth_true]
        split_ifs <;> omega
  · have hmm : m = mp - 9 := by rw [hm, if_neg (by omega)]; ring
    have hmle : m ≤ 2 := by omega
    rw [if_pos hmle]
    refine ⟨?_, by omega, by omega, hd0, ?_⟩
    · unfold daysFromCivil
      simp only
      rw [if_pos hmle, if_neg (show ¬ (2 < m) by omega)]
      rw [show yoe + era * 400 + 1 - 1 = yoe + era * 400 from by ring]
      rw [show (yoe + era * 400) / 400 = era from by omega]
      rw [show yoe + era * 400 - era * 400 = yoe from by ring]
      rw [show 153 * (m + 9) + 2 = 153 * mp + 2 from by omega]
      omega
    · have hiff := gregLeap_iff (yoe + era * 400 + 1)
      rw [show (yoe + era * 400 + 1) % 4 = (yoe + 1) % 4 from by omega,
        show (yoe + era * 400 + 1) % 100 = (yoe + 1) % 100 from by omega,
        show (yoe + era * 400 + 1) % 400 = (yoe + 1) % 400 from by omega] at hiff
      have hdoyNL : ¬ (((yoe + 1) % 4 = 0 ∧ (yoe + 1) % 100 ≠ 0) ∨ (yoe + 1) % 400 = 0) →
          doy ≤ 364 := by
        intro hc
        rw [if_neg hc] at hgap
        omega
      rcases hb : gregLeap (yoe + era * 400 + 1) with _ | _ <;> rw [hb] at hiff
      · simp only [Bool.false_eq_true, false_iff] at hiff
        have h364 : doy ≤ 364 := hdoyNL hiff
        rw [daysInMonth_false]
        split_ifs <;> omega
      · simp only [true_iff] at hiff
        rw [daysInMonth_true]
        split_ifs <;> omega

lemma civilOfEraDoe_spec (era doe : Int) (hdoe0 : 0 ≤ doe) (hdoe1 : doe < 146097) :
    daysFromCivil (civilOfEraDoe era doe).1 (civilOfEraDoe era doe).2.1 (civilOfEraDoe era doe).2.2
      = era * 146097 + doe - 719468 ∧
    1 ≤ (civilOfEraDoe era doe).2.1 ∧ (civilOfEraDoe era doe).2.1 ≤ 12 ∧
    1 ≤ (civilOfEraDoe era doe).2.2 ∧
    (civilOfEraDoe era doe).2.2 ≤
      daysInMonth (civilOfEraDoe era doe).2.1 (gregLeap (civilOfEraDoe era doe).1) := by
  obtain ⟨hy0, hy1, hlo, hhi⟩ := yoe_localize doe hdoe0 hdoe1
  exact civil_inv_core (era * 146097 + doe) era doe (yearGuessNum doe / 365)
    (doe - eraStart (yearGuessNum doe / 365))
    ((5 * (doe - eraStart (yearGuessNum doe / 365)) + 2) / 153)
    (doe - eraStart (yearGuessNum doe / 365) -
      (153 * ((5 * (doe - eraStart (yearGuessNum doe / 365)) + 2) / 153) + 2) / 5 + 1)
    ((5 * (doe - eraStart (yearGuessNum doe / 365)) + 2) / 153 +
      (if (5 * (doe - eraStart (yearGuessNum doe / 365)) + 2) / 153 < 10 then 3 else -9))
    rfl hdoe0 hdoe1 hy0 hy1 hlo hhi rfl rfl rfl rfl

theorem civilFromDays_inv (z : Int) :
    daysFromCivil (civilFromDays z).1 (civilFromDays z).2.1 (civilFromDays z).2.2 = z ∧
    1 ≤ (civilFromDays z).2.1 ∧ (civilFromDays z).2.1 ≤ 12 ∧
    1 ≤ (civilFromDays z).2.2 ∧
    (civilFromDays z).2.2 ≤
      daysInMonth (civilFromDays z).2.1 (gregLeap (civilFromDays z).1) := by
  have h := civilOfEraDoe_spec ((z + 719468) / 146097) ((z + 719468) % 146097)
    (by omega) (by omega)
  have hz : (z + 719468) / 146097 * 146097 + (z + 719468) % 146097 - 719468 = z := by omega
  rw [hz] at h
  exact h
lemma daysFromCivil_lb (y m d : Int) (hm1 : 1 ≤ m) (hm2 : m ≤ 12) (hd1 : 1 ≤ d)
    (hy : 10000 ≤ y) : 2932897 ≤ daysFromCivil y m d := by
  simp only [daysFromCivil, eraStart]
  split_ifs <;> omega

lemma daysFromCivil_ub (y m d : Int) (hm1 : 1 ≤ m) (hm2 : m ≤ 12) (hd31 : d ≤ 31)
    (hy : y ≤ -1) : daysFromCivil y m d ≤ -719529 := by
  simp only [daysFromCivil, eraStart]
  split_ifs <;> omega

lemma daysInMonth_le_31 (m : Int) (b : Bool) : daysInMonth m b ≤ 31 := by
  unfold daysInMonth
  split_ifs <;> norm_num
lemma digitVal?_digitChar (k : Nat) : digitVal? (digitChar k) = some (k % 10) := by
  have h10 : k % 10 = 0 ∨ k % 10 = 1 ∨ k % 10 = 2 ∨ k % 10 = 3 ∨ k % 10 = 4 ∨
      k % 10 = 5 ∨ k % 10 = 6 ∨ k % 10 = 7 ∨ k % 10 = 8 ∨ k % 10 = 9 := by omega
  unfold digitChar
  rcases h10 with h | h | h | h | h | h | h | h | h | h <;> rw [h] <;> rfl
lemma isoFromChars_eval (y1 y2 y3 y4 m1 m2 d1 d2 h1 h2 n1 n2 s1 s2 : Char) (rest : List Char) :
    isoFromChars (y1 :: y2 :: y3 :: y4 :: '-' :: m1 :: m2 :: '-' :: d1 :: d2 :: 'T' ::
      h1 :: h2 :: ':' :: n1 :: n2 :: ':' :: s1 :: s2 :: rest) = (do
    let y ← parse4 y1 y2 y3 y4
    let mo ← parse2 m1 m2
    let da ← parse2 d1 d2
    let hh ← parse2 h1 h2
    let mi ← parse2 n1 n2
    let ss ← parse2 s1 s2
    let (ms, rest2) ← parseIsoTail rest
    let off ← parseOffset rest2
    if 1 ≤ mo ∧ mo ≤ 12 ∧ 1 ≤ da ∧ (da : Int) ≤ daysInMonth (mo : Int) (gregLeap (y : Int)) ∧
        hh ≤ 23 ∧ mi ≤ 59 ∧ ss ≤ 59 then
      let t := daysFromCivil (y : Int) (mo : Int) (da : Int) * 86400000 +
        (hh : Int) * 3600000 + (mi : Int) * 60000 + (ss : Int) * 1000 + (ms : Int) - off
      if -62167219200000 ≤ t ∧ t < 253402300800000 then some t else none
    else none) := rfl
lemma parse2_digitChar (a b : Nat) :
    parse2 (digitChar a) (digitChar b) = some (10 * (a % 10) + b % 10) := by
  simp [parse2, digitVal?_digitChar]

lemma parse3_digitChar (a b c : Nat) :
    parse3 (digitChar a) (digitChar b) (digitChar c) =
      some (100 * (a % 10) + 10 * (b % 10) + c % 10) := by
  simp [parse3, digitVal?_digitChar]

lemma parse4_digitChar (a b c d : Nat) :
    parse4 (digitChar a) (digitChar b) (digitChar c) (digitChar d) =
      some (1000 * (a % 10) + 100 * (b % 10) + 10 * (c % 10) + d % 10) := by
  simp [parse4, digitVal?_digitChar]
lemma jsParseIso_toISOString (t : Int)
    (hlo : -62167219200000 ≤ t) (hhi : t < 253402300800000) :
    jsParseIso (toISOString t) = some t := by
  obtain ⟨hrt, hm1, hm2, hd1, hdle⟩ := civilFromDays_inv (t / 86400000)
  have hzlo : -719528 ≤ t / 86400000 := by omega
  have hzhi : t / 86400000 ≤ 2932896 := by omega
  have hD31 : (civilFromDays (t / 86400000)).2.2 ≤ 31 :=
    le_trans hdle (daysInMonth_le_31 _ _)
  have hY0 : 0 ≤ (civilFromDays (t / 86400000)).1 := by
    by_contra hc
    have := daysFromCivil_ub (civilFromDays (t / 86400000)).1
      (civilFromDays (t / 86400000)).2.1 (civilFromDays (t / 86400000)).2.2
      hm1 hm2 hD31 (by omega)
    omega
  have hY9999 : (civilFromDays (t / 86400000)).1 ≤ 9999 := by
    by_contra hc
    have := daysFromCivil_lb (civilFromDays (t / 86400000)).1
      (civilFromDays (t / 86400000)).2.1 (civilFromDays (t / 86400000)).2.2
      hm1 hm2 hd1 (by omega)
    omega
  have hHb : 0 ≤ getUTCHours t ∧ getUTCHours t ≤ 23 := by unfold getUTCHours; omega
  have hMib : 0 ≤ getUTCMinutes t ∧ getUTCMinutes t ≤ 59 := by unfold getUTCMinutes; omega
  have hSb : 0 ≤ getUTCSeconds t ∧ getUTCSeconds t ≤ 59 := by unfold getUTCSeconds; omega
  have hmsb : 0 ≤ t % 1000 ∧ t % 1000 ≤ 999 := by omega
  show isoFromChars (toISOString t).data = some t
  have hdata : (toISOString t).data =
      digitChar ((civilFromDays (t / 86400000)).1.toNat / 1000 % 10) ::
      digitChar ((civilFromDays (t / 86400000)).1.toNat / 100 % 10) ::
      digitChar ((civilFromDays (t / 86400000)).1.toNat / 10 % 10) ::
      digitChar ((civilFromDays (t / 86400000)).1.toNat % 10) :: '-' ::
      digitChar ((civilFromDays (t / 86400000)).2.1.toNat / 10 % 10) ::
      digitChar ((civilFromDays (t / 86400000)).2.1.toNat % 10) :: '-' ::
      digitChar ((civilFromDays (t / 86400000)).2.2.toNat / 10 % 10) ::
      digitChar ((civilFromDays (t / 86400000)).2.2.toNat % 10) :: 'T' ::
      digitChar ((getUTCHours t).toNat / 10 % 10) ::
      digitChar ((getUTCHours t).toNat % 10) :: ':' ::
      digitChar ((getUTCMinutes t).toNat / 10 % 10) ::
      digitChar ((getUTCMinutes t).toNat % 10) :: ':' ::
      digitChar ((getUTCSeconds t).toNat / 10 % 10) ::
      digitChar ((getUTCSeconds t).toNat % 10) :: '.' ::
      digitChar ((t % 1000).toNat / 100 % 10) ::
      digitChar ((t % 1000).toNat / 10 % 10) ::
      digitChar ((t % 1000).toNat % 10) :: 'Z' :: [] := rfl
  rw [hdata, isoFromChars_eval, parse4_digitChar, parse2_digitChar, parse2_digitChar,
    parse2_digitChar, parse2_digitChar, parse2_digitChar]
  have hYv : 1000 * ((civilFromDays (t / 86400000)).1.toNat / 1000 % 10 % 10) +
      100 * ((civilFromDays (t / 86400000)).1.toNat / 100 % 10 % 10) +
      10 * ((civilFromDays (t / 86400000)).1.toNat / 10 % 10 % 10) +
      (civilFromDays (t / 86400000)).1.toNat % 10 % 10 =
      (civilFromDays (t / 86400000)).1.toNat := by omega
  have hMv : 10 * ((civilFromDays (t / 86400000)).2.1.toNat / 10 % 10 % 10) +
      (civilFromDays (t / 86400000)).2.1.toNat % 10 % 10 =
      (civilFromDays (t / 86400000)).2.1.toNat := by omega
  have hDv : 10 * ((civilFromDays (t / 86400000)).2.2.toNat / 10 % 10 % 10) +
      (civilFromDays (t / 86400000)).2.2.toNat % 10 % 10 =
      (civilFromDays (t / 86400000)).2.2.toNat := by omega
  have hHv : 10 * ((getUTCHours t).toNat / 10 % 10 % 10) + (getUTCHours t).toNat % 10 % 10 =
      (getUTCHours t).toNat := by omega
  have hMiv : 10 * ((getUTCMinutes t).toNat / 10 % 10 % 10) + (getUTCMinutes t).toNat % 10 % 10 =
      (getUTCMinutes t).toNat := by omega
  have hSv : 10 * ((getUTCSeconds t).toNat / 10 % 10 % 10) + (getUTCSeconds t).toNat % 10 % 10 =
      (getUTCSeconds t).toNat := by omega
  have hmsv : 100 * ((t % 1000).toNat / 100 % 10 % 10) + 10 * ((t % 1000).toNat / 10 % 10 % 10) +
      (t % 1000).toNat % 10 % 10 = (t % 1000).toNat := by omega
  rw [hYv, hMv, hDv, hHv, hMiv, hSv]
  have htail : parseIsoTail ('.' :: digitChar ((t % 1000).toNat / 100 % 10) ::
      digitChar ((t % 1000).toNat / 10 % 10) ::
      digitChar ((t % 1000).toNat % 10) :: 'Z' :: []) = some ((t % 1000).toNat, ['Z']) := by
    show (do
      let v ← parse3 (digitChar ((t % 1000).toNat / 100 % 10))
        (digitChar ((t % 1000).toNat / 10 % 10)) (digitChar ((t % 1000).toNat % 10))
      pure (v, ['Z'])) = some ((t % 1000).toNat, ['Z'])
    rw [parse3_digitChar, hmsv]
    rfl
  rw [htail]
  simp only [Option.bind_eq_bind, Option.some_bind]
  have hoff : parseOffset ['Z'] = some 0 := rfl
  rw [hoff]
  simp only [Option.bind_eq_bind, Option.some_bind]
  have hcastY : (((civilFromDays (t / 86400000)).1.toNat : Nat) : Int) =
      (civilFromDays (t / 86400000)).1 := by omega
  have hcastM : (((civilFromDays (t / 86400000)).2.1.toNat : Nat) : Int) =
      (civilFromDays (t / 86400000)).2.1 := by omega
  have hcastD : (((civilFromDays (t / 86400000)).2.2.toNat : Nat) : Int) =
      (civilFromDays (t / 86400000)).2.2 := by omega
  rw [if_pos]
  · rw [hcastY, hcastM, hcastD, hrt]
    have hfin : t / 86400000 * 86400000 + ((getUTCHours t).toNat : Int) * 3600000 +
        ((getUTCMinutes t).toNat : Int) * 60000 + ((getUTCSeconds t).toNat : Int) * 1000 +
        ((t % 1000).toNat : Int) - 0 = t := by
      have e1 : ((getUTCHours t).toNat : Int) = t % 86400000 / 3600000 := by
        unfold getUTCHours at hHb ⊢; omega
      have e2 : ((getUTCMinutes t).toNat : Int) = t % 3600000 / 60000 := by
        unfold getUTCMinutes at hMib ⊢; omega
      have e3 : ((getUTCSeconds t).toNat : Int) = t % 60000 / 1000 := by
        unfold getUTCSeconds at hSb ⊢; omega
      have e4 : ((t % 1000).toNat : Int) = t % 1000 := by omega
      rw [e1, e2, e3, e4]
      omega
    rw [hfin, if_pos ⟨hlo, hhi⟩]
  · refine ⟨by omega, by omega, by omega, ?_, by omega, by omega, by omega⟩
    rw [hcastY, hcastM, hcastD]
    exact hdle
lemma jsParseIso_range (s : String) (t : Int) (h : jsParseIso s = some t) :
    -62167219200000 ≤ t ∧ t < 253402300800000 := by
  unfold jsParseIso isoFromChars at h
  split at h
  · simp only [Option.bind_eq_bind, Option.bind_eq_some] at h
    obtain ⟨y, -, mo, -, da, -, hh, -, mi, -, ss, -, ⟨ms, rest2⟩, -, off, -, hfin⟩ := h
    simp only at hfin
    split_ifs at hfin with h1 h2
    · cases hfin
      exact h2
  · exact absurd h (by simp)

/- ## Theorems for claims C6, C7, C8, C10 -/

/-- **C6**: whenever the host parser recognizes no date in the input
(`jsNewDate s = none`, the Invalid Date), both repository parsers signal
failure — `parseDataFromRfc2822` propagates NaN and `parseDataFromIso8601`
returns the Invalid Date itself — and no partial result is returned; in
particular the empty string and random text are rejected. -/
theorem claim_C6_parsers_reject :
    (∀ s : String, jsNewDate s = none →
      parseDataFromRfc2822 s = none ∧ parseDataFromIso8601 s = none) ∧
    jsNewDate "" = none ∧ jsNewDate "hello world" = none := by
  refine ⟨?_, by decide, by decide⟩
  intro s hbad
  unfold parseDataFromRfc2822 parseDataFromIso8601
  rw [hbad]
  exact ⟨rfl, rfl⟩

/-- Witness for `claim_C6_parsers_reject` at the malformed input
`"garbage"`. -/
theorem claim_C6_witness :
    parseDataFromRfc2822 "garbage" = none ∧ parseDataFromIso8601 "garbage" = none :=
  claim_C6_parsers_reject.1 "garbage" (by decide)

/-- **C7**: `parseDataFromRfc2822` on `"Tue, 26 Jan 2016 13:48:02 GMT"`
returns exactly the millisecond count of 2016-01-26T13:48:02Z
(`Date.UTC(2016, 0, 26, 13, 48, 2) = 1453816082000`), and on the
offset-carrying `"Sun, 17 May 1998 03:00:00 GMT+01"` it normalizes to UTC,
returning the milliseconds of 1998-05-17T02:00:00Z. -/
theorem claim_C7_rfc2822_utc :
    parseDataFromRfc2822 "Tue, 26 Jan 2016 13:48:02 GMT" = some 1453816082000 ∧
    dateUTC 2016 0 26 13 48 2 = 1453816082000 ∧
    parseDataFromRfc2822 "Sun, 17 May 1998 03:00:00 GMT+01" = some 895370400000 ∧
    dateUTC 1998 4 17 2 0 0 = 895370400000 := by
  exact ⟨by decide, by decide, by decide, by decide⟩

/-- **C8**: for every string the ISO 8601 grammar accepts (denoting the
instant `t`), `parseDataFromIso8601` returns that instant, and formatting
it back to ISO 8601 with an explicit offset yields a string that the same
grammar parses to the same instant `t` — the round trip preserves the
instant. -/
theorem claim_C8_iso_roundtrip (s : String) (t : Int) (h : jsParseIso s = some t) :
    parseDataFromIso8601 s = some t ∧ jsParseIso (toISOString t) = some t := by
  have hr := jsParseIso_range s t h
  constructor
  · unfold parseDataFromIso8601 jsNewDate
    rw [h]
  · exact jsParseIso_toISOString t hr.1 hr.2

/-- Witness for `claim_C8_iso_roundtrip` at the spec's example input
`"2016-01-19T16:07:37+00:00"`. -/
theorem claim_C8_witness :
    parseDataFromIso8601 "2016-01-19T16:07:37+00:00" = some 1453219657000 ∧
      jsParseIso (toISOString 1453219657000) = some 1453219657000 :=
  claim_C8_iso_roundtrip "2016-01-19T16:07:37+00:00" 1453219657000 (by decide)

/-- **C10**: for every input string, `parseDataFromRfc2822` returns either
the invalid-date sentinel or a millisecond count divisible by 1000: the
source rebuilds the instant with `Date.UTC` from year down to seconds
only, so any sub-second component of the parsed input is dropped. -/
theorem claim_C10_seconds_granularity (s : String) :
    parseDataFromRfc2822 s = none ∨
    ∃ n : Int, parseDataFromRfc2822 s = some n ∧ n % 1000 = 0 := by
  unfold parseDataFromRfc2822
  cases h : jsNewDate s with
  | none => exact Or.inl rfl
  | some tm =>
    refine Or.inr ⟨dateUTC (getUTCFullYear tm) (getUTCMonth tm) (getUTCDate tm)
      (getUTCHours tm) (getUTCMinutes tm) (getUTCSeconds tm), rfl, ?_⟩
    unfold dateUTC
    omega
